import Mathlib

/-!
Verification of the PUBG match-interaction finder against its specification.

The development shallowly embeds the two route implementations of the
repository (the streaming route in `src/app/api/search/route.ts` and the
older batch route) as executable Lean functions:

* the rate gate `enforceRateLimit` and its wrapper `rateLimitedAxiosGet`
  (timestamps are integers, milliseconds);
* the interaction extractor (`qualifies`, `eventToInteraction`,
  `extractInteractions`);
* the orchestrator / streaming protocol (`processMatches`, `runStream`,
  `POST`), with the upstream API abstracted as a `World` record of
  responses (player resolution, per-match details, per-URL telemetry);
* the batch implementation (`batchLoop`, `batchPOST`).

Theorems named `cN...` settle the corresponding specification claims.
-/

namespace Pubg

/-! ## Rate Gate (route.ts lines 28-51) -/

/-- `RATE_LIMIT` from route.ts: at most 10 requests per window. -/
def RATE_LIMIT : Nat := 10

/-- `RATE_WINDOW_MS` from route.ts: the 60 000 ms sliding window. -/
def RATE_WINDOW_MS : Int := 60000

/-- Result of one `enforceRateLimit` invocation: the returned wait time and
the new value of the module-level `requestTimestamps` array. -/
structure GateResult where
  wait : Int
  stamps : List Int
deriving DecidableEq, Repr

/-- `enforceRateLimit` from route.ts.  The mutable module variable
`requestTimestamps` is passed and returned explicitly.  In the quota branch
the filtered list has length at least `RATE_LIMIT > 0`, so it is nonempty and
`headD 0` is exactly the source's `requestTimestamps[0]`. -/
def enforceRateLimit (now : Int) (requestTimestamps : List Int) : GateResult :=
  let filtered := requestTimestamps.filter fun ts => decide (now - ts < RATE_WINDOW_MS)
  if RATE_LIMIT ≤ filtered.length then
    ⟨RATE_WINDOW_MS - (now - filtered.headD 0), filtered⟩
  else
    ⟨0, filtered ++ [now]⟩

/-- `rateLimitedAxiosGet` from route.ts, reduced to its timing behaviour:
given the invocation instant and the current ledger it returns the instant at
which the underlying `axios.get` is issued (after sleeping for a positive
wait) together with the new ledger.  A delayed call sleeps once and then
proceeds without re-invoking the gate and without being recorded. -/
def rateLimitedAxiosGet (now : Int) (stamps : List Int) : Int × List Int :=
  let r := enforceRateLimit now stamps
  (if 0 < r.wait then now + r.wait else now, r.stamps)

/-- Drive a sequence of wrapper calls: for each invocation instant, the
instant the external call is actually issued. -/
def runCalls (stamps : List Int) : List Int → List Int
  | [] => []
  | t :: ts =>
    let r := rateLimitedAxiosGet t stamps
    r.1 :: runCalls r.2 ts

/-- Number of issued calls falling in the half-open window
`[b, b + RATE_WINDOW_MS)`. -/
def callsInWindow (issueTimes : List Int) (b : Int) : Nat :=
  (issueTimes.filter fun t => decide (b ≤ t ∧ t < b + RATE_WINDOW_MS)).length

/-- A list of invocation instants is sequentially realisable from a ledger:
each call is invoked no earlier than the instant the previous call was
issued (the pipeline is strictly sequential). -/
def sequentiallyValid (stamps : List Int) : List Int → Bool
  | [] => true
  | t :: ts =>
    let r := rateLimitedAxiosGet t stamps
    (match ts with
     | [] => true
     | t' :: _ => decide (r.1 ≤ t')) && sequentiallyValid r.2 ts

/-- Ten rapid calls at instant 0, an eleventh (delayed) call, then ten more
as soon as the eleventh is issued. -/
def rapidCallTimes : List Int := List.replicate 10 0 ++ [0] ++ List.replicate 10 60000

/-- Gate ledger after `n` zero-wait admissions at instant `t`, starting from
the empty ledger. -/
def gateStateAfter (t : Int) : Nat → List Int
  | 0 => []
  | n + 1 => (enforceRateLimit t (gateStateAfter t n)).stamps

theorem gateStateAfter_eq_replicate (t : Int) :
    ∀ n, n ≤ RATE_LIMIT → gateStateAfter t n = List.replicate n t := by
  intro n
  induction n with
  | zero => intro _; rfl
  | succ k ih =>
    intro hk
    have hk' : k ≤ RATE_LIMIT := Nat.le_of_succ_le hk
    have hklt : k < RATE_LIMIT := Nat.lt_of_succ_le hk
    simp only [gateStateAfter, ih hk', enforceRateLimit]
    have hfilter :
        (List.replicate k t).filter (fun ts => decide (t - ts < RATE_WINDOW_MS)) =
          List.replicate k t := by
      apply List.filter_replicate_of_pos
      simp [RATE_WINDOW_MS]
    rw [hfilter]
    rw [if_neg (by simpa using Nat.not_le_of_lt hklt)]
    simp [List.replicate_succ']

/-- Claim C1's universal quota invariant fails: eleven external calls are
issued at instant 60000 (one delayed call issued without being recorded or
re-checked, followed by ten fresh admissions), all inside one sliding window
of length `RATE_WINDOW_MS`, on a sequentially realisable call trace. -/
theorem c1_rate_gate_counterexample :
    sequentiallyValid [] rapidCallTimes = true ∧
    RATE_LIMIT < callsInWindow (runCalls [] rapidCallTimes) 60000 := by
  constructor
  · decide
  · decide

/-- Claim C1 (amended): after `RATE_LIMIT` rapid calls at instant `t`
starting from an empty ledger, an invocation at any instant `tq` still
inside the window returns a positive wait equal to `RATE_WINDOW_MS - (tq - t)`,
that is, the window length minus (now minus the oldest retained timestamp),
and records no new timestamp.  (The wrapper then sleeps and issues the call
without re-checking or recording it, which is why issued calls can
nevertheless exceed the quota inside one window.) -/
theorem c1_rate_gate_wait (t tq : Int) (_h1 : t ≤ tq) (h2 : tq < t + RATE_WINDOW_MS) :
    enforceRateLimit tq (gateStateAfter t RATE_LIMIT) =
      ⟨RATE_WINDOW_MS - (tq - t), List.replicate RATE_LIMIT t⟩ ∧
    0 < RATE_WINDOW_MS - (tq - t) := by
  have hrep := gateStateAfter_eq_replicate t RATE_LIMIT (Nat.le_refl _)
  have hfilter :
      (List.replicate RATE_LIMIT t).filter (fun ts => decide (tq - ts < RATE_WINDOW_MS)) =
        List.replicate RATE_LIMIT t := by
    apply List.filter_replicate_of_pos
    simp only [decide_eq_true_eq]
    omega
  constructor
  · rw [hrep]
    simp only [enforceRateLimit, hfilter]
    rw [if_pos (by simp [RATE_LIMIT])]
    have hhead : (List.replicate RATE_LIMIT t).headD 0 = t := by
      simp [RATE_LIMIT, List.replicate_succ]
    rw [hhead]
  · omega

/-- Witness for `c1_rate_gate_wait` at `t = 0`, `tq = 0`. -/
theorem c1_rate_gate_wait_witness :
    enforceRateLimit 0 (gateStateAfter 0 RATE_LIMIT) =
      ⟨RATE_WINDOW_MS - (0 - 0), List.replicate RATE_LIMIT 0⟩ ∧
    0 < RATE_WINDOW_MS - (0 - 0) :=
  c1_rate_gate_wait 0 0 (by decide) (by decide)

/-- Claim C2: each invocation of `enforceRateLimit` first discards every
retained timestamp whose age reaches the window length; if fewer than
`RATE_LIMIT` timestamps remain it records `now` and returns zero wait,
otherwise it returns `RATE_WINDOW_MS - (now - oldest)` without recording a
new timestamp; and on a time-ordered ledger the surviving head really is the
oldest retained timestamp. -/
theorem c2_gate_contract (now : Int) (stamps : List Int) :
    (enforceRateLimit now stamps =
      if (stamps.filter fun ts => decide (now - ts < RATE_WINDOW_MS)).length < RATE_LIMIT
      then ⟨0, (stamps.filter fun ts => decide (now - ts < RATE_WINDOW_MS)) ++ [now]⟩
      else ⟨RATE_WINDOW_MS -
              (now - (stamps.filter fun ts => decide (now - ts < RATE_WINDOW_MS)).headD 0),
            stamps.filter fun ts => decide (now - ts < RATE_WINDOW_MS)⟩) ∧
    (∀ ts ∈ stamps, RATE_WINDOW_MS ≤ now - ts →
      ts ∉ (enforceRateLimit now stamps).stamps) ∧
    (List.Pairwise (fun x y => x ≤ y) stamps →
      ∀ ts ∈ stamps.filter fun ts => decide (now - ts < RATE_WINDOW_MS),
        (stamps.filter fun ts => decide (now - ts < RATE_WINDOW_MS)).headD 0 ≤ ts) := by
  refine ⟨?_, ?_, ?_⟩
  · simp only [enforceRateLimit]
    by_cases h : RATE_LIMIT ≤ (stamps.filter fun ts => decide (now - ts < RATE_WINDOW_MS)).length
    · rw [if_pos h, if_neg (by omega)]
    · rw [if_neg h, if_pos (by omega)]
  · intro ts hmem hold
    have hts : ts ∉ stamps.filter fun ts => decide (now - ts < RATE_WINDOW_MS) := by
      intro hin
      have := (List.mem_filter.mp hin).2
      simp only [decide_eq_true_eq] at this
      omega
    have htsnow : ts ≠ now := by
      intro h; subst h; simp only [RATE_WINDOW_MS] at hold; omega
    simp only [enforceRateLimit]
    by_cases h : RATE_LIMIT ≤ (stamps.filter fun ts => decide (now - ts < RATE_WINDOW_MS)).length
    · rw [if_pos h]; exact hts
    · rw [if_neg h]
      simp only [List.mem_append, List.mem_singleton]
      rintro (hin | hin)
      · exact hts hin
      · exact htsnow hin
  · intro hsorted ts hmem
    have hps : List.Pairwise (fun x y => x ≤ y)
        (stamps.filter fun ts => decide (now - ts < RATE_WINDOW_MS)) :=
      List.Pairwise.filter _ hsorted
    cases hkept : stamps.filter fun ts => decide (now - ts < RATE_WINDOW_MS) with
    | nil => rw [hkept] at hmem; simp at hmem
    | cons a l =>
      rw [hkept] at hmem hps
      simp only [List.headD_cons]
      rcases List.mem_cons.mp hmem with h | h
      · exact le_of_eq h.symm
      · exact (List.rel_of_pairwise_cons hps) h

/-- Witness for `c2_gate_contract`: a full ledger of ten timestamps at 50,
queried at 100, yields wait `60000 - 50` and the ledger unchanged. -/
theorem c2_gate_contract_witness :
    enforceRateLimit 100 (List.replicate 10 50) =
      ⟨RATE_WINDOW_MS - (100 - 50), List.replicate 10 50⟩ := by
  have h := (c2_gate_contract 100 (List.replicate 10 50)).1
  rw [h]
  decide

/-! ## Interaction extractor (route.ts lines 130-157) -/

/-- A telemetry actor object (`attacker`, `victim`, `dBNOMaker`, `finisher`,
`killer` all carry an `accountId` and a `name`). -/
structure Actor where
  accountId : String
  name : String
deriving DecidableEq, Repr

/-- A decoded telemetry event.  `tag` is the source's `_T` field and
`timestamp` its `_D` field; each actor field may be absent.  The numeric
`damage` value is only copied through, never computed with. -/
structure TelemetryEvent where
  tag : String
  timestamp : String
  attacker : Option Actor
  victim : Option Actor
  dBNOMaker : Option Actor
  finisher : Option Actor
  killer : Option Actor
  damage : Option Int
  damageReason : Option String
deriving DecidableEq, Repr

/-- Optional-chained account id: `x?.accountId`.  An absent actor yields
`none`, and `none == some id` is `false`, exactly as
`undefined === playerId` is in the source. -/
def accId : Option Actor → Option String
  | none => none
  | some a => some a.accountId

/-- Optional-chained display name: `x?.name`. -/
def actorName : Option Actor → Option String
  | none => none
  | some a => some a.name

/-- JavaScript `||` on optional strings: an absent or empty left operand
falls through to the right operand. -/
def jsOrString : Option String → Option String → Option String
  | some s, b => if s = "" then b else some s
  | none, b => b

/-- One direction-insensitive (actor, victim) check against the resolved
pair, as written twice per role in the source filter:
`(actor === playerId && victim === opponentId) || (actor === opponentId && victim === playerId)`. -/
def pairMatch (x y : Option String) (playerId opponentId : String) : Bool :=
  (x == some playerId && y == some opponentId) ||
  (x == some opponentId && y == some playerId)

/-- The filter predicate of route.ts lines 130-147: `isDamage || isKnock || isKill`. -/
def qualifies (playerId opponentId : String) (event : TelemetryEvent) : Bool :=
  let isDamage := event.tag == "LogPlayerTakeDamage" &&
    pairMatch (accId event.attacker) (accId event.victim) playerId opponentId
  let isKnock := event.tag == "LogPlayerMakeGroggy" &&
    pairMatch (accId event.attacker) (accId event.victim) playerId opponentId
  let isKill := event.tag == "LogPlayerKillV2" &&
    (pairMatch (accId event.dBNOMaker) (accId event.victim) playerId opponentId ||
     pairMatch (accId event.finisher) (accId event.victim) playerId opponentId ||
     pairMatch (accId event.killer) (accId event.victim) playerId opponentId)
  isDamage || isKnock || isKill

/-- The `details` payload built by the `.map` of route.ts lines 148-157. -/
structure InteractionDetails where
  attacker : Option String
  victim : Option String
  damage : Option Int
  damageReason : Option String
deriving DecidableEq, Repr

/-- An emitted interaction record. -/
structure Interaction where
  type : String
  timestamp : String
  details : InteractionDetails
deriving DecidableEq, Repr

/-- The `.map` step of route.ts lines 148-157.  The reported attacker name
is the JavaScript chain
`event.attacker?.name || event.dBNOMaker?.name || event.finisher?.name || event.killer?.name`. -/
def eventToInteraction (event : TelemetryEvent) : Interaction :=
  { type := event.tag
    timestamp := event.timestamp
    details :=
      { attacker := jsOrString (actorName event.attacker)
          (jsOrString (actorName event.dBNOMaker)
            (jsOrString (actorName event.finisher) (actorName event.killer)))
        victim := actorName event.victim
        damage := event.damage
        damageReason := event.damageReason } }

/-- `telemetry.filter(...).map(...)` of route.ts lines 130-157. -/
def extractInteractions (playerId opponentId : String)
    (telemetry : List TelemetryEvent) : List Interaction :=
  (telemetry.filter (qualifies playerId opponentId)).map eventToInteraction

theorem pairMatch_symm (x y : Option String) (p o : String) :
    pairMatch x y p o = pairMatch x y o p := by
  simp [pairMatch, Bool.or_comm]

/-- Claim C4: extraction is order-preserving (its output is a sublist of the
per-event images taken in input order), qualification is insensitive to the
direction of the identity pair, and a damage event in either direction
qualifies. -/
theorem c4_extraction_order (a b : String) (events : List TelemetryEvent) :
    List.Sublist (extractInteractions a b events) (events.map eventToInteraction) ∧
    (∀ e, qualifies a b e = qualifies b a e) ∧
    (∀ e, e.tag = "LogPlayerTakeDamage" →
      pairMatch (accId e.attacker) (accId e.victim) a b = true →
      qualifies a b e = true) := by
  refine ⟨?_, ?_, ?_⟩
  · exact List.Sublist.map eventToInteraction (List.filter_sublist events)
  · intro e
    simp only [qualifies]
    rw [pairMatch_symm (accId e.attacker) (accId e.victim) a b,
        pairMatch_symm (accId e.dBNOMaker) (accId e.victim) a b,
        pairMatch_symm (accId e.finisher) (accId e.victim) a b,
        pairMatch_symm (accId e.killer) (accId e.victim) a b]
  · intro e htag hpm
    simp [qualifies, htag, hpm]

/-- Two mutual damage events between accounts `acct.a` and `acct.b`. -/
def damageAtoB : TelemetryEvent :=
  { tag := "LogPlayerTakeDamage", timestamp := "t1"
    attacker := some ⟨"acct.a", "A"⟩, victim := some ⟨"acct.b", "B"⟩
    dBNOMaker := none, finisher := none, killer := none
    damage := some 30, damageReason := some "ArmShot" }

def damageBtoA : TelemetryEvent :=
  { tag := "LogPlayerTakeDamage", timestamp := "t2"
    attacker := some ⟨"acct.b", "B"⟩, victim := some ⟨"acct.a", "A"⟩
    dBNOMaker := none, finisher := none, killer := none
    damage := some 25, damageReason := some "TorsoShot" }

/-- Witness for `c4_extraction_order`: both directions of a mutual damage
exchange qualify, via the third conjunct of the theorem. -/
theorem c4_extraction_order_witness :
    qualifies "acct.a" "acct.b" damageAtoB = true ∧
    qualifies "acct.a" "acct.b" damageBtoA = true :=
  ⟨(c4_extraction_order "acct.a" "acct.b" []).2.2 damageAtoB (by decide) (by decide),
   (c4_extraction_order "acct.a" "acct.b" []).2.2 damageBtoA (by decide) (by decide)⟩

/-- The name the specification expects for a kill interaction: the first
present of `dBNOMaker` (downer), `finisher`, `killer`, ignoring the
`attacker` field and JavaScript truthiness.  Stated from the spec's words
for comparison with `eventToInteraction`. -/
def specKillActorName (event : TelemetryEvent) : Option String :=
  match actorName event.dBNOMaker with
  | some s => some s
  | none =>
    match actorName event.finisher with
    | some s => some s
    | none => actorName event.killer

/-- A qualifying kill event that also carries an `attacker` field. -/
def killEventWithAttacker : TelemetryEvent :=
  { tag := "LogPlayerKillV2", timestamp := "t3"
    attacker := some ⟨"acct.x", "Attacker Name"⟩
    victim := some ⟨"acct.b", "B"⟩
    dBNOMaker := some ⟨"acct.a", "Downer Name"⟩
    finisher := none, killer := none
    damage := none, damageReason := none }

/-- Claim C5 fails as stated: this kill event qualifies and its downer role
is present with display name `Downer Name`, yet the reported actor name is
the `attacker` field's `Attacker Name`, because the source's fallback chain
consults `event.attacker?.name` before any of the three kill roles. -/
theorem c5_kill_name_counterexample :
    qualifies "acct.a" "acct.b" killEventWithAttacker = true ∧
    (eventToInteraction killEventWithAttacker).details.attacker = some "Attacker Name" ∧
    specKillActorName killEventWithAttacker = some "Downer Name" ∧
    some "Attacker Name" ≠ some "Downer Name" := by
  refine ⟨by decide, by decide, by decide, by decide⟩

/-- Claim C5 (amended): a kill-type event qualifies exactly when ANY of the
three roles (downer, finisher, killer) paired with the victim matches the
identity pair, independently of the other role fields; and when the event
carries no `attacker` field and its present role names are non-empty, the
reported actor display name is the first present role in the precedence
order downer, finisher, killer. -/
theorem c5_kill_roles (p o : String) (e : TelemetryEvent)
    (htag : e.tag = "LogPlayerKillV2") :
    (qualifies p o e =
      (pairMatch (accId e.dBNOMaker) (accId e.victim) p o ||
       pairMatch (accId e.finisher) (accId e.victim) p o ||
       pairMatch (accId e.killer) (accId e.victim) p o)) ∧
    (e.attacker = none →
      (∀ x, e.dBNOMaker = some x → x.name ≠ "") →
      (∀ x, e.finisher = some x → x.name ≠ "") →
      (∀ x, e.killer = some x → x.name ≠ "") →
      (eventToInteraction e).details.attacker = specKillActorName e) := by
  constructor
  · simp [qualifies, htag]
  · intro hatt hd hf hk
    simp only [eventToInteraction, specKillActorName, hatt, actorName, jsOrString]
    cases hdm : e.dBNOMaker with
    | some x =>
      simp only [actorName, jsOrString, if_neg (hd x hdm)]
    | none =>
      simp only [actorName, jsOrString]
      cases hfin : e.finisher with
      | some x =>
        simp only [actorName, jsOrString, if_neg (hf x hfin)]
      | none => simp only [actorName, jsOrString]

/-- A qualifying kill event with only the `killer` role present. -/
def killEventKillerOnly : TelemetryEvent :=
  { tag := "LogPlayerKillV2", timestamp := "t4"
    attacker := none
    victim := some ⟨"acct.b", "B"⟩
    dBNOMaker := none, finisher := none
    killer := some ⟨"acct.a", "A"⟩
    damage := none, damageReason := none }

/-- Witness for `c5_kill_roles`: a kill with only the `killer` role present
qualifies and reports that role's name. -/
theorem c5_kill_roles_witness :
    (qualifies "acct.a" "acct.b" killEventKillerOnly =
      (pairMatch (accId killEventKillerOnly.dBNOMaker) (accId killEventKillerOnly.victim)
          "acct.a" "acct.b" ||
       pairMatch (accId killEventKillerOnly.finisher) (accId killEventKillerOnly.victim)
          "acct.a" "acct.b" ||
       pairMatch (accId killEventKillerOnly.killer) (accId killEventKillerOnly.victim)
          "acct.a" "acct.b")) ∧
    (eventToInteraction killEventKillerOnly).details.attacker =
      specKillActorName killEventKillerOnly := by
  have h := c5_kill_roles "acct.a" "acct.b" killEventKillerOnly rfl
  exact ⟨h.1, h.2 rfl (by intro x hx; cases hx) (by intro x hx; cases hx)
    (by intro x hx; cases hx; decide)⟩

/-- Claim C10: a damage or incapacitation event with no `attacker` field
never qualifies, no matter who the victim is. -/
theorem c10_no_attacker (p o : String) (e : TelemetryEvent)
    (htag : e.tag = "LogPlayerTakeDamage" ∨ e.tag = "LogPlayerMakeGroggy")
    (hatt : e.attacker = none) :
    qualifies p o e = false := by
  rcases htag with h | h <;> simp [qualifies, h, hatt, accId, pairMatch]

/-- An environmental (attacker-less) damage event on victim `acct.b`. -/
def environmentalDamage : TelemetryEvent :=
  { tag := "LogPlayerTakeDamage", timestamp := "t5"
    attacker := none
    victim := some ⟨"acct.b", "B"⟩
    dBNOMaker := none, finisher := none, killer := none
    damage := some 10, damageReason := some "RedZone" }

/-- Witness for `c10_no_attacker` at a concrete environmental-damage event. -/
theorem c10_no_attacker_witness :
    qualifies "acct.a" "acct.b" environmentalDamage = false :=
  c10_no_attacker "acct.a" "acct.b" environmentalDamage (Or.inl rfl) rfl

/-! ## Orchestrator and streaming protocol (route.ts lines 53-196) -/

/-- A resolved player from the `/players` response: `id`, `attributes.name`
and the ids in `relationships.matches.data`. -/
structure Player where
  id : String
  name : String
  matchIds : List String
deriving DecidableEq, Repr

/-- An element of a match response's `included` array, by its `type` tag:
a participant carries `attributes.stats.playerId`, an asset carries
`attributes.URL`, anything else is ignored. -/
inductive IncludedItem where
  | participant (playerId : String)
  | asset (url : String)
  | other (t : String)
deriving DecidableEq, Repr

/-- The parts of a `/matches/{id}` response the pipeline reads. -/
structure MatchResponse where
  mapName : String
  createdAt : String
  included : List IncludedItem
deriving DecidableEq, Repr

/-- An upstream failure carries the optional diagnostic
`error.response?.data?.errors?.[0]?.detail`. -/
def UpstreamFailure : Type := Option String

/-- The external API, abstracted: the response each of the three kinds of
external call would produce, plus the behaviour of the external date-fns
time-zone formatting (an external collaborator, of no algorithmic weight). -/
structure World where
  playersResponse : Except (Option String) (List Player)
  matchResponse : String → Except (Option String) MatchResponse
  telemetryResponse : String → Except (Option String) (List TelemetryEvent)
  formatEST : String → String

/-- An emitted MatchSummary (`{ id, map, startedAt, interactions }`). -/
structure MatchSummary where
  id : String
  map : String
  startedAt : String
  interactions : List Interaction
deriving DecidableEq, Repr

/-- One newline-delimited record of the streamed response: a progress line,
a match record, the `\x7b"matches": []\x7d` completion marker, or an error
record. -/
inductive Msg where
  | progress (text : String)
  | matchRec (m : MatchSummary)
  | matchesDone
  | error (text : String)
deriving DecidableEq, Repr

/-- The predicate of the source's `included.find` on participants:
`item.type === "participant" && item.attributes.stats.playerId === opponentId`. -/
def isOpponentParticipant (opponentId : String) : IncludedItem → Bool
  | .participant pid => pid == opponentId
  | _ => false

/-- `included.find(item => item.type === "asset")` followed by reading
`attributes.URL`. -/
def findAssetUrl (included : List IncludedItem) : Option String :=
  included.findSome? fun item =>
    match item with
    | .asset url => some url
    | _ => none

/-- JavaScript's `toLowerCase()` on the basic latin range, written as a
structural recursion over the string's characters so that it evaluates by
kernel reduction. -/
def jsToLowerCase (s : String) : String := ⟨s.data.map Char.toLower⟩

/-- The streaming route's case-insensitive player lookup:
`data.find(p => p.attributes.name.toLowerCase() === requested.toLowerCase())`. -/
def resolvePlayer (players : List Player) (requestedName : String) : Option Player :=
  players.find? fun p => jsToLowerCase p.name == jsToLowerCase requestedName

/-- The fallback of route.ts line 183: the upstream diagnostic when present
and truthy, else the generic message. -/
def upstreamErrorText (detail : Option String) : String :=
  match detail with
  | some d => if d = "" then "Failed to fetch data. Check console for details." else d
  | none => "Failed to fetch data. Check console for details."

/-- How the per-match loop ended: all matches processed, or aborted by a
thrown upstream failure (to be rendered by the catch block). -/
inductive LoopEnd where
  | completed
  | failed (detail : Option String)
deriving DecidableEq, Repr

/-- Observable behaviour of the per-match loop: the records enqueued, the
telemetry fetches issued (match id paired with the fetched URL), and how the
loop ended. -/
structure LoopResult where
  msgs : List Msg
  telemetryCalls : List (String × String)
  outcome : LoopEnd
deriving DecidableEq, Repr

/-- The `for` loop of route.ts lines 96-175, one match id at a time.
`n` is the source's `processedCount` for the current match and `total` is
`matchIds.length`. -/
def processMatches (playerId opponentId : String) (w : World) (total : Nat) :
    Nat → List String → LoopResult
  | _, [] => ⟨[], [], .completed⟩
  | n, matchId :: rest =>
    let header := Msg.progress ("Processing match " ++ toString n ++ "/" ++
      toString total ++ " (ID: " ++ matchId ++ ")...")
    match w.matchResponse matchId with
    | .error d => ⟨[header], [], .failed d⟩
    | .ok mr =>
      if (mr.included.find? (isOpponentParticipant opponentId)).isSome then
        match findAssetUrl mr.included with
        | none =>
          let r := processMatches playerId opponentId w total (n + 1) rest
          ⟨header ::
            Msg.progress ("No telemetry available for match " ++ toString n ++ "/" ++
              toString total ++ ". Skipping.") :: r.msgs,
           r.telemetryCalls, r.outcome⟩
        | some url =>
          let fetching := Msg.progress ("Fetching telemetry for match " ++ toString n ++
            "/" ++ toString total ++ "...")
          match w.telemetryResponse url with
          | .error d => ⟨[header, fetching], [(matchId, url)], .failed d⟩
          | .ok events =>
            let interactions := extractInteractions playerId opponentId events
            let summary : MatchSummary :=
              ⟨matchId, mr.mapName, w.formatEST mr.createdAt, interactions⟩
            let done := Msg.progress ("Completed match " ++ toString n ++ "/" ++
              toString total ++ ". Found " ++ toString interactions.length ++
              " interactions.")
            let r := processMatches playerId opponentId w total (n + 1) rest
            ⟨header :: fetching :: Msg.matchRec summary :: done :: r.msgs,
             (matchId, url) :: r.telemetryCalls, r.outcome⟩
      else
        let r := processMatches playerId opponentId w total (n + 1) rest
        ⟨header ::
          Msg.progress ("Opponent not in match " ++ toString n ++ "/" ++
            toString total ++ ". Skipping.") :: r.msgs,
         r.telemetryCalls, r.outcome⟩

/-- The whole stream body of route.ts lines 64-186: everything enqueued on
the response stream, in order, for one run. -/
def runStream (w : World) (playerName opponentName : String) : List Msg :=
  Msg.progress "Fetching player data..." ::
    match w.playersResponse with
    | .error d => [Msg.error (upstreamErrorText d)]
    | .ok players =>
      match resolvePlayer players playerName, resolvePlayer players opponentName with
      | some playerData, some opponentData =>
        let matchIds := playerData.matchIds
        Msg.progress ("Found " ++ toString matchIds.length ++
          " recent matches. Checking for shared matches...") ::
          (let r := processMatches playerData.id opponentData.id w matchIds.length 1 matchIds
           r.msgs ++
             match r.outcome with
             | .failed d => [Msg.error (upstreamErrorText d)]
             | .completed => [Msg.progress "Processing complete!", Msg.matchesDone])
      | _, _ => [Msg.error "One or both players not found"]

/-- JavaScript truthiness of an optional string (`!x` is true exactly on a
missing or empty value). -/
def jsTruthy : Option String → Bool
  | none => false
  | some s => s != ""

/-- The route's reply: an immediate JSON error with a status code, or the
opened stream. -/
inductive PostResponse where
  | immediate (errorText : String) (status : Nat)
  | stream (msgs : List Msg)
deriving DecidableEq, Repr

/-- `POST` of route.ts lines 53-196: credential check, input check, then
the stream. -/
def POST (apiKey : Option String) (playerName opponentName : Option String)
    (w : World) : PostResponse :=
  if !jsTruthy apiKey then .immediate "PUBG API key not configured" 500
  else if !jsTruthy playerName || !jsTruthy opponentName then
    .immediate "Player names required" 400
  else .stream (runStream w (playerName.getD "") (opponentName.getD ""))

/-- The match records carried by a message sequence, in emission order. -/
def matchRecords (msgs : List Msg) : List MatchSummary :=
  msgs.filterMap fun m =>
    match m with
    | .matchRec x => some x
    | _ => none

/-- A record that terminates the stream: the completion marker or an error. -/
def isTerminal : Msg → Bool
  | .matchesDone => true
  | .error _ => true
  | _ => false

/-! ## The batch implementation (the second, older route file) -/

/-- The batch route's case-sensitive player lookup:
`data.find(p => p.attributes.name === requested)`. -/
def resolvePlayerExact (players : List Player) (requestedName : String) : Option Player :=
  players.find? fun p => p.name == requestedName

/-- The batch route's reply: a JSON error with a status, or the
`\x7b"matches": [...]\x7d` payload. -/
inductive BatchResponse where
  | jsonError (errorText : String) (status : Nat)
  | jsonMatches (ms : List MatchSummary)
deriving DecidableEq, Repr

/-- The `for` loop of the batch route.  Any upstream failure is a thrown
exception swallowed by the surrounding catch, as is reading
`asset.attributes.URL` when no asset item exists.  Once telemetry for a
shared match arrives, the file calls `utcToZonedTime`, which it never
imports, so a ReferenceError is thrown before the summary is pushed:
a shared match with available telemetry always aborts the loop. -/
def batchLoop (opponentId : String) (w : World) : List String → Except Unit (List MatchSummary)
  | [] => .ok []
  | matchId :: rest =>
    match w.matchResponse matchId with
    | .error _ => .error ()
    | .ok mr =>
      if (mr.included.find? (isOpponentParticipant opponentId)).isSome then
        match findAssetUrl mr.included with
        | none => .error ()
        | some url =>
          match w.telemetryResponse url with
          | .error _ => .error ()
          | .ok _ => .error ()
      else batchLoop opponentId w rest

/-- `POST` of the batch route: same credential and input checks, exact-case
resolution, then the loop; every caught exception becomes the generic
`Failed to fetch data` 500 response. -/
def batchPOST (apiKey : Option String) (playerName opponentName : Option String)
    (w : World) : BatchResponse :=
  if !jsTruthy apiKey then .jsonError "PUBG API key not configured" 500
  else if !jsTruthy playerName || !jsTruthy opponentName then
    .jsonError "Player names required" 400
  else
    match w.playersResponse with
    | .error _ => .jsonError "Failed to fetch data" 500
    | .ok players =>
      match resolvePlayerExact players (playerName.getD ""),
            resolvePlayerExact players (opponentName.getD "") with
      | some playerData, some opponentData =>
        match batchLoop opponentData.id w playerData.matchIds with
        | .ok ms => .jsonMatches ms
        | .error _ => .jsonError "Failed to fetch data" 500
      | _, _ => .jsonError "One or both players not found" 404

/-! ## Concrete scenarios used as witnesses and counterexamples -/

def alicePlayer : Player := ⟨"account.p1", "Alice", ["match-1"]⟩

def bobPlayer : Player := ⟨"account.p2", "Bob", []⟩

/-- A match both players participate in, with a telemetry asset. -/
def sharedMatch : MatchResponse :=
  ⟨"Erangel_Main", "2024-01-01T00:00:00Z",
   [.participant "account.p1", .participant "account.p2",
    .asset "https://telemetry.example/u1"]⟩

/-- A world with one shared match whose telemetry is empty. -/
def wShared : World :=
  { playersResponse := .ok [alicePlayer, bobPlayer]
    matchResponse := fun mid => if mid = "match-1" then .ok sharedMatch else .error none
    telemetryResponse := fun _ => .ok []
    formatEST := fun s => s }

def aliceNoMatches : Player := ⟨"account.p1", "Alice", []⟩

/-- A world where the primary player has no recent matches. -/
def wEmpty : World :=
  { playersResponse := .ok [aliceNoMatches, bobPlayer]
    matchResponse := fun _ => .error none
    telemetryResponse := fun _ => .error none
    formatEST := fun s => s }

/-! ## Claims about the orchestrator -/

theorem matchRecords_progress_cons (s : String) (l : List Msg) :
    matchRecords (Msg.progress s :: l) = matchRecords l := rfl

theorem matchRecords_matchRec_cons (x : MatchSummary) (l : List Msg) :
    matchRecords (Msg.matchRec x :: l) = x :: matchRecords l := rfl

/-- Claim C3: every telemetry fetch issued by the per-match loop, and every
match record it emits, belongs to a match whose fetched participants include
the resolved opponent identity; hence an opponent-less match causes zero
telemetry fetches and zero summaries. -/
theorem c3_opponent_gate (playerId opponentId : String) (w : World) (total : Nat)
    (n : Nat) (mids : List String) :
    (∀ mid url,
      (mid, url) ∈ (processMatches playerId opponentId w total n mids).telemetryCalls →
      ∃ mr, w.matchResponse mid = .ok mr ∧
        (mr.included.find? (isOpponentParticipant opponentId)).isSome = true) ∧
    (∀ m ∈ matchRecords (processMatches playerId opponentId w total n mids).msgs,
      ∃ mr, w.matchResponse m.id = .ok mr ∧
        (mr.included.find? (isOpponentParticipant opponentId)).isSome = true) := by
  induction mids generalizing n with
  | nil =>
    refine ⟨fun mid url hmem => ?_, fun m hmem => ?_⟩ <;>
      simp [processMatches, matchRecords] at hmem
  | cons matchId rest ih =>
    cases hmr : w.matchResponse matchId with
    | error d =>
      refine ⟨fun mid url hmem => ?_, fun m hmem => ?_⟩ <;>
        simp [processMatches, hmr, matchRecords] at hmem
    | ok mr =>
      by_cases hop : (mr.included.find? (isOpponentParticipant opponentId)).isSome
      · cases hasset : findAssetUrl mr.included with
        | none =>
          refine ⟨?_, ?_⟩
          · intro mid url hmem
            simp [processMatches, hmr, hasset, hop] at hmem
            exact (ih (n + 1)).1 mid url hmem
          · intro m hmem
            simp [processMatches, hmr, hasset, hop, matchRecords_progress_cons] at hmem
            exact (ih (n + 1)).2 m hmem
        | some url =>
          cases htel : w.telemetryResponse url with
          | error d =>
            refine ⟨?_, ?_⟩
            · intro mid u hmem
              simp [processMatches, hmr, hasset, htel, hop, Prod.mk.injEq] at hmem
              exact ⟨mr, by rw [hmem.1]; exact hmr, hop⟩
            · intro m hmem
              simp [processMatches, hmr, hasset, htel, hop, matchRecords] at hmem
          | ok events =>
            refine ⟨?_, ?_⟩
            · intro mid u hmem
              simp [processMatches, hmr, hasset, htel, hop, Prod.mk.injEq] at hmem
              rcases hmem with ⟨h1, _⟩ | hmem
              · exact ⟨mr, by rw [h1]; exact hmr, hop⟩
              · exact (ih (n + 1)).1 mid u hmem
            · intro m hmem
              simp [processMatches, hmr, hasset, htel, hop, matchRecords_progress_cons,
                matchRecords_matchRec_cons] at hmem
              rcases hmem with h1 | hmem
              · subst h1; exact ⟨mr, hmr, hop⟩
              · exact (ih (n + 1)).2 m hmem
      · refine ⟨?_, ?_⟩
        · intro mid url hmem
          simp [processMatches, hmr, hop] at hmem
          exact (ih (n + 1)).1 mid url hmem
        · intro m hmem
          simp [processMatches, hmr, hop, matchRecords_progress_cons] at hmem
          exact (ih (n + 1)).2 m hmem

/-- Witness for `c3_opponent_gate`: in the shared-match world the loop
fetches telemetry for `match-1`, and that match indeed contains the
opponent. -/
theorem c3_opponent_gate_witness :
    ∃ mr, wShared.matchResponse "match-1" = .ok mr ∧
      (mr.included.find? (isOpponentParticipant "account.p2")).isSome = true :=
  (c3_opponent_gate "account.p1" "account.p2" wShared 1 1 ["match-1"]).1
    "match-1" "https://telemetry.example/u1" (by decide)

theorem processMatches_no_terminal (playerId opponentId : String) (w : World)
    (total : Nat) (n : Nat) (mids : List String) :
    ∀ m ∈ (processMatches playerId opponentId w total n mids).msgs,
      isTerminal m = false := by
  induction mids generalizing n with
  | nil => intro m hmem; simp [processMatches] at hmem
  | cons matchId rest ih =>
    intro m hmem
    cases hmr : w.matchResponse matchId with
    | error d =>
      simp [processMatches, hmr] at hmem
      subst hmem; rfl
    | ok mr =>
      by_cases hop : (mr.included.find? (isOpponentParticipant opponentId)).isSome
      · cases hasset : findAssetUrl mr.included with
        | none =>
          simp [processMatches, hmr, hasset, hop] at hmem
          rcases hmem with h | h | h
          · subst h; rfl
          · subst h; rfl
          · exact ih (n + 1) m h
        | some url =>
          cases htel : w.telemetryResponse url with
          | error d =>
            simp [processMatches, hmr, hasset, htel, hop] at hmem
            rcases hmem with h | h
            · subst h; rfl
            · subst h; rfl
          | ok events =>
            simp [processMatches, hmr, hasset, htel, hop] at hmem
            rcases hmem with h | h | h | h | h
            · subst h; rfl
            · subst h; rfl
            · subst h; rfl
            · subst h; rfl
            · exact ih (n + 1) m h
      · simp [processMatches, hmr, hop] at hmem
        rcases hmem with h | h | h
        · subst h; rfl
        · subst h; rfl
        · exact ih (n + 1) m h

/-- Claim C6: every streamed run ends in exactly one terminal record — the
completion marker or a single error — and no record after it; every earlier
record (including match records already emitted before an error) is
non-terminal and stays in the sequence. -/
theorem c6_terminal_shape (w : World) (playerName opponentName : String) :
    ∃ body last, runStream w playerName opponentName = body ++ [last] ∧
      isTerminal last = true ∧ ∀ m ∈ body, isTerminal m = false := by
  cases hp : w.playersResponse with
  | error d =>
    refine ⟨[Msg.progress "Fetching player data..."],
      Msg.error (upstreamErrorText d), by simp [runStream, hp], rfl, ?_⟩
    intro m hmem
    simp only [List.mem_cons, List.not_mem_nil, or_false] at hmem
    subst hmem; rfl
  | ok players =>
    cases hpd : resolvePlayer players playerName with
    | none =>
      cases hod : resolvePlayer players opponentName with
      | none =>
        refine ⟨[Msg.progress "Fetching player data..."],
          Msg.error "One or both players not found",
          by simp [runStream, hp, hpd, hod], rfl, ?_⟩
        intro m hmem
        simp only [List.mem_cons, List.not_mem_nil, or_false] at hmem
        subst hmem; rfl
      | some opponentData =>
        refine ⟨[Msg.progress "Fetching player data..."],
          Msg.error "One or both players not found",
          by simp [runStream, hp, hpd, hod], rfl, ?_⟩
        intro m hmem
        simp only [List.mem_cons, List.not_mem_nil, or_false] at hmem
        subst hmem; rfl
    | some playerData =>
      cases hod : resolvePlayer players opponentName with
      | none =>
        refine ⟨[Msg.progress "Fetching player data..."],
          Msg.error "One or both players not found",
          by simp [runStream, hp, hpd, hod], rfl, ?_⟩
        intro m hmem
        simp only [List.mem_cons, List.not_mem_nil, or_false] at hmem
        subst hmem; rfl
      | some opponentData =>
        have hbody := processMatches_no_terminal playerData.id opponentData.id w
          playerData.matchIds.length 1 playerData.matchIds
        cases ho : (processMatches playerData.id opponentData.id w
            playerData.matchIds.length 1 playerData.matchIds).outcome with
        | completed =>
          refine ⟨Msg.progress "Fetching player data..." ::
            Msg.progress ("Found " ++ toString playerData.matchIds.length ++
              " recent matches. Checking for shared matches...") ::
            (processMatches playerData.id opponentData.id w
              playerData.matchIds.length 1 playerData.matchIds).msgs ++
            [Msg.progress "Processing complete!"], Msg.matchesDone,
            by simp [runStream, hp, hpd, hod, ho, List.append_assoc], rfl, ?_⟩
          intro m hmem
          simp only [List.mem_append, List.mem_cons, List.not_mem_nil,
            or_false] at hmem
          rcases hmem with (h | h | h) | h
          · subst h; rfl
          · subst h; rfl
          · exact hbody m h
          · subst h; rfl
        | failed d =>
          refine ⟨Msg.progress "Fetching player data..." ::
            Msg.progress ("Found " ++ toString playerData.matchIds.length ++
              " recent matches. Checking for shared matches...") ::
            (processMatches playerData.id opponentData.id w
              playerData.matchIds.length 1 playerData.matchIds).msgs,
            Msg.error (upstreamErrorText d),
            by simp [runStream, hp, hpd, hod, ho], rfl, ?_⟩
          intro m hmem
          simp only [List.mem_cons] at hmem
          rcases hmem with h | h | h
          · subst h; rfl
          · subst h; rfl
          · exact hbody m h

/-- Witness for `c6_terminal_shape` in the shared-match world. -/
theorem c6_terminal_shape_witness :
    ∃ body last, runStream wShared "Alice" "Bob" = body ++ [last] ∧
      isTerminal last = true ∧ ∀ m ∈ body, isTerminal m = false :=
  c6_terminal_shape wShared "Alice" "Bob"

/-- Claim C8: a missing or empty upstream credential yields the immediate
configuration-error response, a missing or empty player name yields the
immediate (and distinct) input-error response, and in either case the reply
is independent of the outside world — no external call and no stream. -/
theorem c8_prechecks (apiKey playerName opponentName : Option String) (w w' : World) :
    (jsTruthy apiKey = false →
      POST apiKey playerName opponentName w = .immediate "PUBG API key not configured" 500) ∧
    (jsTruthy apiKey = true →
      (jsTruthy playerName = false ∨ jsTruthy opponentName = false) →
      POST apiKey playerName opponentName w = .immediate "Player names required" 400) ∧
    ((jsTruthy apiKey = false ∨ jsTruthy playerName = false ∨
        jsTruthy opponentName = false) →
      POST apiKey playerName opponentName w = POST apiKey playerName opponentName w') := by
  refine ⟨?_, ?_, ?_⟩
  · intro h; simp [POST, h]
  · rintro h (hn | hn) <;> simp [POST, h, hn]
  · rintro (h | h | h) <;> simp [POST, h]

/-- Witness for `c8_prechecks`: missing key, then missing opponent name. -/
theorem c8_prechecks_witness :
    POST none (some "a") (some "b") wShared =
      .immediate "PUBG API key not configured" 500 ∧
    POST (some "key") (some "a") none wShared =
      .immediate "Player names required" 400 :=
  ⟨(c8_prechecks none (some "a") (some "b") wShared wEmpty).1 rfl,
   (c8_prechecks (some "key") (some "a") none wShared wEmpty).2.1 (by decide)
     (Or.inr rfl)⟩

/-- Claim C9: the streaming route's player resolution is case-insensitive:
if the response holds a player whose name equals the requested one up to
letter case (and no other such player), that player is resolved. -/
theorem c9_case_insensitive (players : List Player) (requested : String) (q : Player)
    (hmem : q ∈ players) (hci : jsToLowerCase q.name = jsToLowerCase requested)
    (huniq : ∀ r ∈ players, jsToLowerCase r.name = jsToLowerCase requested → r = q) :
    resolvePlayer players requested = some q := by
  have hsome :
      (players.find? fun p => jsToLowerCase p.name == jsToLowerCase requested).isSome := by
    rw [List.find?_isSome]
    exact ⟨q, hmem, by simp [hci]⟩
  obtain ⟨r, hr⟩ := Option.isSome_iff_exists.mp hsome
  have hrmem : r ∈ players := List.mem_of_find?_eq_some hr
  have hrp := List.find?_some hr
  simp only [beq_iff_eq] at hrp
  have hq : r = q := huniq r hrmem hrp
  subst hq
  exact hr

def upperCaseAlice : Player := ⟨"account.p1", "ALICE", []⟩

/-- Witness for `c9_case_insensitive`: `alice` resolves to the player
registered as `ALICE`. -/
theorem c9_case_insensitive_witness :
    resolvePlayer [upperCaseAlice] "alice" = some upperCaseAlice :=
  c9_case_insensitive [upperCaseAlice] "alice" upperCaseAlice (by decide) (by decide)
    (by decide)

theorem batchLoop_ok_nil (opponentId : String) (w : World) :
    ∀ mids ms, batchLoop opponentId w mids = .ok ms → ms = [] := by
  intro mids
  induction mids with
  | nil =>
    intro ms h
    simp only [batchLoop] at h
    cases h
    rfl
  | cons matchId rest ih =>
    intro ms h
    simp only [batchLoop] at h
    split at h
    · cases h
    · split at h
      · split at h
        · cases h
        · split at h
          · cases h
          · cases h
      · exact ih ms h

/-- Claim C7 (amended): the two route implementations are not equivalent.
The batch implementation can only ever return an empty matches array: any
shared match with available telemetry makes its handler throw (it calls a
time-zone helper it never imports) and answer with a single error response,
and a shared match without a telemetry asset also makes it throw instead of
skipping, while the streaming implementation emits the summaries such
matches produce. -/
theorem c7_batch_only_empty (apiKey playerName opponentName : Option String)
    (w : World) (ms : List MatchSummary)
    (h : batchPOST apiKey playerName opponentName w = .jsonMatches ms) : ms = [] := by
  unfold batchPOST at h
  split at h
  · cases h
  · split at h
    · cases h
    · split at h
      · cases h
      · split at h
        · rename_i heq
          split at h
          · rename_i hloop
            cases h
            exact batchLoop_ok_nil _ w _ _ hloop
          · cases h
        · cases h

/-- Witness for `c7_batch_only_empty`: with no recent matches the batch
route does answer with a matches array, and it is empty. -/
theorem c7_batch_only_empty_witness :
    batchPOST (some "key") (some "Alice") (some "Bob") wEmpty = .jsonMatches [] ∧
    ([] : List MatchSummary) = [] :=
  ⟨by decide,
   c7_batch_only_empty (some "key") (some "Alice") (some "Bob") wEmpty [] (by decide)⟩

/-- Claim C7 fails as stated: on identical inputs with one shared match the
streaming implementation emits one MatchSummary record while the batch
implementation returns a single error response and no matches array at all,
so no matches array equal to the streamed record sequence exists. -/
theorem c7_counterexample :
    batchPOST (some "key") (some "Alice") (some "Bob") wShared =
      .jsonError "Failed to fetch data" 500 ∧
    matchRecords (runStream wShared "Alice" "Bob") =
      [⟨"match-1", "Erangel_Main", "2024-01-01T00:00:00Z", []⟩] ∧
    ¬ ∃ ms, batchPOST (some "key") (some "Alice") (some "Bob") wShared =
        .jsonMatches ms ∧
      matchRecords (runStream wShared "Alice" "Bob") = ms := by
  refine ⟨by decide, by decide, ?_⟩
  rintro ⟨ms, hb, _⟩
  rw [show batchPOST (some "key") (some "Alice") (some "Bob") wShared =
    .jsonError "Failed to fetch data" 500 by decide] at hb
  cases hb

end Pubg
